import Mathlib

/-!
Shallow embedding of the transcode orchestration engine of
transcoder-go, src/cmd/root.go (rootCmd.Run, lines 52 to 204).

The per-file pass is modelled as a pure step function over a small
filesystem abstraction.  Fallible operating-system calls (stat, create,
remove, rename) are resolved by an explicit oracle of outcome flags, so
that every code path of the Go function is reachable in the model.
-/

namespace TranscoderGo

/-- Result kinds handed to notifications.NotifyEnd: models.ResultReplaced,
models.ResultKeepOriginal and models.ResultError. -/
inductive ResultKind where
  | Replaced
  | KeepOriginal
  | Error
deriving DecidableEq, Repr

/-- Observable actions of one per-file pass of rootCmd.Run
(src/cmd/root.go lines 120 to 204), recorded in program order:
os.Create of the processed marker (line 127), os.Remove of the temp file
(lines 138 and 165), os.Remove of the original (line 181), os.Rename of
the temp file to the extension-corrected path (line 188), and each
notifications.NotifyEnd call. -/
inductive Event where
  | createMarker
  | removeTemp
  | removeOriginal
  | renameTempToOutput
  | notify (k : ResultKind)
deriving DecidableEq, Repr

/-- The result kind carried by a notify event, if any. -/
def Event.kindOf : Event → Option ResultKind
  | Event.notify k => some k
  | _ => none

/-- The sequence of result kinds emitted to the sink by a trace. -/
def notifies (tr : List Event) : List ResultKind :=
  tr.filterMap Event.kindOf

/-- Existence facts about the four paths one candidate touches: the
original file, its temp output (fileName plus ".transcode-temp"), the
processed marker, and the extension-corrected output path. -/
structure FileState where
  originalExists : Bool
  tempExists : Bool
  markerExists : Bool
  outputExists : Bool
deriving DecidableEq, Repr

/-- State after the processed marker is created (root.go line 127). -/
def FileState.withMarker (s : FileState) : FileState :=
  ⟨s.originalExists, s.tempExists, true, s.outputExists⟩

/-- State after the transcode session has written the temp output. -/
def FileState.withTemp (s : FileState) : FileState :=
  ⟨s.originalExists, true, s.markerExists, s.outputExists⟩

/-- State after os.Remove of the temp file (root.go lines 138, 165). -/
def FileState.dropTemp (s : FileState) : FileState :=
  ⟨s.originalExists, false, s.markerExists, s.outputExists⟩

/-- State after os.Remove of the original file (root.go line 181). -/
def FileState.dropOriginal (s : FileState) : FileState :=
  ⟨false, s.tempExists, s.markerExists, s.outputExists⟩

/-- State after os.Rename of the temp file onto the extension-corrected
output path (root.go line 188). -/
def FileState.renamed (s : FileState) : FileState :=
  ⟨s.originalExists, false, s.markerExists, true⟩

/-- A fresh candidate: original present, no temp, no marker, no output. -/
def cleanState : FileState := ⟨true, false, false, false⟩

/-- Outcomes of the fallible operating-system calls of one pass.
statMarkerErr and statTempErr say that os.Stat failed with an error that
os.IsNotExist rejects (root.go lines 93 and 110).  createMarkerOk is
success of os.Create (line 127).  removeTempKilledOk is success, or a
tolerated not-exist error, of os.Remove on the killed path (lines 138 to
143); false means an error that os.IsNotExist rejects.  removeTempKeepOk,
removeOriginalOk and renameOk are plain success of the calls at lines
165, 181 and 188, where any error skips the file. -/
structure Oracle where
  statMarkerErr : Bool
  statTempErr : Bool
  createMarkerOk : Bool
  removeTempKilledOk : Bool
  removeTempKeepOk : Bool
  removeOriginalOk : Bool
  renameOk : Bool
deriving DecidableEq, Repr

/-- The oracle on which every operating-system call succeeds. -/
def allOk : Oracle := ⟨false, false, true, true, true, true, true⟩

/-- Result of one os.Stat call as the Go code discriminates it:
file present (err == nil), absent (os.IsNotExist), or another error. -/
inductive Stat3 where
  | present
  | absent
  | ioErr
deriving DecidableEq, Repr

/-- How the pre-session part of the loop body disposes of a candidate
(root.go lines 67 to 120). -/
inductive StepOutcome where
  | stopBatch
  | skipInvalidExt
  | skipMarkerStatError
  | skipProcessed
  | skipTempStatError
  | skipInProgress
  | runSession
deriving DecidableEq, Repr

/-- The checks a candidate passes before transcoder.TranscodeFile is
invoked, in source order (root.go lines 67 to 120): the termination flag
at the top of the loop (line 68, a return), the extension allow-list
(lines 72 to 84), the stat of the processed marker (lines 91 to 101),
and the stat of the temp file (lines 108 to 118, where presence skips
with a warning). -/
def candidateCheck (term0 extValid : Bool) (marker temp : Stat3) :
    StepOutcome :=
  if term0 then StepOutcome.stopBatch
  else if extValid = false then StepOutcome.skipInvalidExt
  else
    match marker with
    | Stat3.ioErr => StepOutcome.skipMarkerStatError
    | Stat3.present => StepOutcome.skipProcessed
    | Stat3.absent =>
      match temp with
      | Stat3.ioErr => StepOutcome.skipTempStatError
      | Stat3.present => StepOutcome.skipInProgress
      | Stat3.absent => StepOutcome.runSession

/-- The os.Stat result for a path, given the error flag of the oracle
and whether the file exists. -/
def statOf (hasErr hasFile : Bool) : Stat3 :=
  if hasErr then Stat3.ioErr
  else if hasFile then Stat3.present
  else Stat3.absent

/-- The code after transcoder.TranscodeFile returns (root.go lines 122 to
202).  term is the value of the global terminated flag read at line 122;
killed and lastReport are the return values of the session; origSize is
metadata.Format.SizeInt() of the original, resultSize that of the temp
output re-read at line 161; lastReport carries int64(report.TotalSize).
Returns the final state and the trace of events. -/
def handleSession (o : Oracle) (term killed keepOld : Bool)
    (origSize resultSize : Int) (lastReport : Option Int)
    (s : FileState) : FileState × List Event :=
  if term then
    (s, [Event.notify ResultKind.Error])
  else if o.createMarkerOk = false then
    (s, [])
  else
    if killed then
      if o.removeTempKilledOk = false then
        (s.withMarker, [Event.createMarker])
      else
        match lastReport with
        | some sz =>
          if origSize < sz then
            (s.withMarker.dropTemp,
             [Event.createMarker, Event.removeTemp,
              Event.notify ResultKind.KeepOriginal])
          else
            (s.withMarker.dropTemp, [Event.createMarker, Event.removeTemp])
        | none =>
          (s.withMarker.dropTemp, [Event.createMarker, Event.removeTemp])
    else
      if keepOld = true ∧ origSize < resultSize then
        if o.removeTempKeepOk = false then
          (s.withMarker, [Event.createMarker])
        else
          (s.withMarker.dropTemp,
           [Event.createMarker, Event.removeTemp,
            Event.notify ResultKind.KeepOriginal])
      else
        if o.removeOriginalOk = false then
          (s.withMarker, [Event.createMarker])
        else if o.renameOk = false then
          (s.withMarker.dropOriginal,
           [Event.createMarker, Event.removeOriginal])
        else
          (s.withMarker.dropOriginal.renamed,
           [Event.createMarker, Event.removeOriginal,
            Event.renameTempToOutput, Event.notify ResultKind.Replaced])

/-- One full iteration of the loop body for a candidate (root.go lines
67 to 204).  term0 is the terminated flag at the top of the loop, term1
its value when the session returns.  The third component of the result
records whether transcoder.TranscodeFile was invoked; when it is, the
session has written the temp output before handleSession runs. -/
def processFile (o : Oracle) (term0 term1 extValid killed keepOld : Bool)
    (origSize resultSize : Int) (lastReport : Option Int)
    (s : FileState) : FileState × List Event × Bool :=
  if candidateCheck term0 extValid (statOf o.statMarkerErr s.markerExists)
      (statOf o.statTempErr s.tempExists) = StepOutcome.runSession then
    let p := handleSession o term1 killed keepOld origSize resultSize
      lastReport s.withTemp
    (p.1, p.2, true)
  else
    (s, [], false)

/-- Index of the last occurrence of a character in a list, if any.
Embeds the search strings.LastIndex performs for a one-byte needle. -/
def lastIdx (c : Char) : List Char → Option Nat
  | [] => none
  | x :: xs =>
    match lastIdx c xs with
    | some i => some (i + 1)
    | none => if x = c then some 0 else none

/-- strings.LastIndex(s, needle) for a one-character needle: the index
of the last occurrence, or -1 when there is none. -/
def goLastIndex (c : Char) (s : List Char) : Int :=
  match lastIdx c s with
  | some i => (i : Int)
  | none => -1

/-- root.go lines 86 and 87: fileName[:strings.LastIndex(fileName, ".")]
with ".mp4" appended.  Defined via Int.toNat, so it is faithful exactly
when the name contains a dot, which the extension allow-list guarantees
on every path that uses it. -/
def extCorrectedOriginal (s : List Char) : List Char :=
  s.take (goLastIndex '.' s).toNat ++ ".mp4".toList

/-- filepath.Dir for already-clean paths: everything before the last
path separator ("." when there is none, "/" when the separator is
first).  filepath.Dir additionally runs Clean, which is the identity on
clean paths. -/
def goDir (s : List Char) : List Char :=
  match lastIdx '/' s with
  | none => ".".toList
  | some i => if i = 0 then "/".toList else s.take i

/-- filepath.Base for already-clean paths: everything after the last
path separator. -/
def goBase (s : List Char) : List Char :=
  match lastIdx '/' s with
  | none => s
  | some i => s.drop (i + 1)

/-- root.go line 89: filepath.Dir(extCorrectedOriginal) + "/." +
filepath.Base(extCorrectedOriginal) + ".processed". -/
def processedFileName (s : List Char) : List Char :=
  goDir (extCorrectedOriginal s) ++ "/.".toList
    ++ goBase (extCorrectedOriginal s) ++ ".processed".toList

/-- root.go line 106: fileName + ".transcode-temp". -/
def tempFileName (s : List Char) : List Char :=
  s ++ ".transcode-temp".toList

theorem lastIdx_of_not_mem (c : Char) (s : List Char) (h : c ∉ s) :
    lastIdx c s = none := by
  induction s with
  | nil => rfl
  | cons x xs ih =>
    have hx : ¬ x = c := by
      intro hh
      exact h (hh ▸ List.mem_cons_self x xs)
    have h2 : c ∉ xs := fun hh => h (List.mem_cons_of_mem x hh)
    simp [lastIdx, ih h2, hx]

theorem lastIdx_append_cons (c : Char) (xs ys : List Char) (h : c ∉ ys) :
    lastIdx c (xs ++ c :: ys) = some xs.length := by
  induction xs with
  | nil => simp [lastIdx, lastIdx_of_not_mem c ys h]
  | cons x xs ih => simp [lastIdx, ih]

theorem extCorrected_append (u ext : List Char) (h : ('.' : Char) ∉ ext) :
    extCorrectedOriginal (u ++ '.' :: ext) = u ++ ".mp4".toList := by
  unfold extCorrectedOriginal goLastIndex
  rw [lastIdx_append_cons _ _ _ h]
  simp [List.take_left]

theorem goDir_append (dir rest : List Char) (h : ('/' : Char) ∉ rest)
    (hd : dir ≠ []) :
    goDir (dir ++ '/' :: rest) = dir := by
  unfold goDir
  rw [lastIdx_append_cons _ _ _ h]
  have hne : dir.length ≠ 0 := by
    simpa using hd
  simp [hne, List.take_left]

theorem goBase_append (dir rest : List Char) (h : ('/' : Char) ∉ rest) :
    goBase (dir ++ '/' :: rest) = rest := by
  unfold goBase
  rw [lastIdx_append_cons _ _ _ h]
  show List.drop (dir.length + 1) (dir ++ '/' :: rest) = rest
  have hsh : dir ++ '/' :: rest = (dir ++ ['/']) ++ rest := by simp
  have hl : dir.length + 1 = (dir ++ ['/']).length := by simp
  rw [hsh, hl, List.drop_left]

theorem extCorrected_idem (p : List Char) :
    extCorrectedOriginal (extCorrectedOriginal p) = extCorrectedOriginal p := by
  have h : ('.' : Char) ∉ "mp4".toList := by decide
  have hsh : extCorrectedOriginal p
      = p.take (goLastIndex '.' p).toNat ++ '.' :: "mp4".toList := rfl
  have hlit : ".mp4".toList = '.' :: "mp4".toList := by decide
  rw [hsh, extCorrected_append _ _ h, hlit]

theorem processedFileName_extCorrected (p : List Char) :
    processedFileName (extCorrectedOriginal p) = processedFileName p := by
  unfold processedFileName
  rw [extCorrected_idem]

theorem processFile_skip (o : Oracle) (term0 term1 extValid killed keepOld : Bool)
    (origSize resultSize : Int) (lastReport : Option Int) (s : FileState)
    (h : s.markerExists = true ∨ s.tempExists = true) :
    processFile o term0 term1 extValid killed keepOld origSize resultSize
      lastReport s = (s, [], false) := by
  have hne : candidateCheck term0 extValid
      (statOf o.statMarkerErr s.markerExists)
      (statOf o.statTempErr s.tempExists) ≠ StepOutcome.runSession := by
    rcases h with h | h <;>
      cases term0 <;> cases extValid <;>
      rcases hm : o.statMarkerErr <;> rcases ht : o.statTempErr <;>
      rcases hmk : s.markerExists <;>
      simp_all [candidateCheck, statOf]
  simp [processFile, hne]

theorem handleSession_notifies_len (o : Oracle) (term killed keepOld : Bool)
    (origSize resultSize : Int) (lastReport : Option Int) (s : FileState) :
    (notifies (handleSession o term killed keepOld origSize resultSize
      lastReport s).2).length ≤ 1 := by
  rcases lastReport with _ | sz <;>
    simp only [handleSession] <;> split_ifs <;> simp [notifies, Event.kindOf]

theorem handleSession_trace_head (o : Oracle) (killed keepOld : Bool)
    (origSize resultSize : Int) (lastReport : Option Int) (s : FileState) :
    (handleSession o false killed keepOld origSize resultSize
      lastReport s).2 = []
    ∨ (handleSession o false killed keepOld origSize resultSize
      lastReport s).2.head? = some Event.createMarker := by
  rcases lastReport with _ | sz <;>
    simp only [handleSession] <;> split_ifs <;> simp_all

theorem handleSession_marker (o : Oracle) (killed keepOld : Bool)
    (origSize resultSize : Int) (lastReport : Option Int) (s : FileState)
    (h : o.createMarkerOk = true) :
    (handleSession o false killed keepOld origSize resultSize
      lastReport s).1.markerExists = true := by
  rcases lastReport with _ | sz <;>
    simp only [handleSession] <;> split_ifs <;>
      simp_all [FileState.withMarker, FileState.dropTemp,
        FileState.dropOriginal, FileState.renamed]

/-- C1 (counterexample): with keep-old enabled and a tie, transcoded
size T equal to original size O (both 100), the comparison at root.go
line 163 is strict, so the code takes the replace branch and emits
Replaced; the claim as stated requires KeptOriginal whenever T >= O and
in particular at a tie. -/
theorem c1_keep_old_tie_replaces :
    notifies (processFile allOk false false true false true 100 100 none
      cleanState).2.1 = [ResultKind.Replaced]
    ∧ ResultKind.KeepOriginal ∉
        notifies (processFile allOk false false true false true 100 100 none
          cleanState).2.1 := by decide

/-- C1 (amended): for a session that completes normally with keep-old
enabled and every filesystem call succeeding, the outcome is
KeptOriginal (temp deleted, original untouched) iff T > O strictly, and
Replaced (original deleted, temp renamed) iff T <= O; a tie yields
Replaced. -/
theorem c1_keep_old_strict_decision (origSize resultSize : Int)
    (s : FileState) (h3 : s.markerExists = false) (h4 : s.tempExists = false) :
    (ResultKind.KeepOriginal ∈ notifies
        (processFile allOk false false true false true origSize resultSize
          none s).2.1
      ↔ origSize < resultSize)
    ∧ (ResultKind.Replaced ∈ notifies
        (processFile allOk false false true false true origSize resultSize
          none s).2.1
      ↔ resultSize ≤ origSize)
    ∧ (origSize < resultSize →
        (processFile allOk false false true false true origSize resultSize
          none s).1.tempExists = false
        ∧ (processFile allOk false false true false true origSize resultSize
            none s).1.originalExists = s.originalExists)
    ∧ (resultSize ≤ origSize →
        (processFile allOk false false true false true origSize resultSize
          none s).1.originalExists = false
        ∧ (processFile allOk false false true false true origSize resultSize
            none s).1.outputExists = true) := by
  by_cases hlt : origSize < resultSize
  · have hle := hlt.not_le
    simp [processFile, candidateCheck, statOf, handleSession, allOk, notifies,
      Event.kindOf, FileState.withTemp, FileState.withMarker,
      FileState.dropTemp, h3, h4, hlt, hle]
  · have hle := not_lt.mp hlt
    simp [processFile, candidateCheck, statOf, handleSession, allOk, notifies,
      Event.kindOf, FileState.withTemp, FileState.withMarker,
      FileState.dropOriginal, FileState.renamed, h3, h4, hlt, hle]

/-- C1 witness for the amended decision theorem at O = 100, T = 50. -/
theorem c1_keep_old_strict_decision_witness :
    (ResultKind.KeepOriginal ∈ notifies
        (processFile allOk false false true false true 100 50 none
          cleanState).2.1
      ↔ (100 : Int) < 50)
    ∧ (ResultKind.Replaced ∈ notifies
        (processFile allOk false false true false true 100 50 none
          cleanState).2.1
      ↔ (50 : Int) ≤ 100)
    ∧ ((100 : Int) < 50 →
        (processFile allOk false false true false true 100 50 none
          cleanState).1.tempExists = false
        ∧ (processFile allOk false false true false true 100 50 none
            cleanState).1.originalExists = cleanState.originalExists)
    ∧ ((50 : Int) ≤ 100 →
        (processFile allOk false false true false true 100 50 none
          cleanState).1.originalExists = false
        ∧ (processFile allOk false false true false true 100 50 none
            cleanState).1.outputExists = true) :=
  c1_keep_old_strict_decision 100 50 cleanState rfl rfl

/-- C2 (counterexample): termination is requested mid-encode (flag unset
at the top of the loop, set when the session returns killed), yet after
the driver finishes handling the file the temp output still exists:
root.go line 122 short-circuits to NotifyEnd(Error) before the deletion
at line 138 can run. -/
theorem c2_terminated_temp_left_behind :
    (processFile allOk false true true true false 500 0 (some 600)
      cleanState).2.2 = true
    ∧ (processFile allOk false true true true false 500 0 (some 600)
        cleanState).1.tempExists = true := by decide

/-- C2 (amended): when the session returns with the termination flag
set, the temp output file is left in place, not deleted, and the
original file is neither deleted nor renamed; no removal or rename is
performed at all. -/
theorem c2_terminated_preserves_temp_and_original (o : Oracle)
    (killed keepOld : Bool) (origSize resultSize : Int)
    (lastReport : Option Int) (s : FileState)
    (h1 : o.statMarkerErr = false) (h2 : o.statTempErr = false)
    (h3 : s.markerExists = false) (h4 : s.tempExists = false) :
    (processFile o false true true killed keepOld origSize resultSize
      lastReport s).1.tempExists = true
    ∧ (processFile o false true true killed keepOld origSize resultSize
        lastReport s).1.originalExists = s.originalExists
    ∧ Event.removeOriginal ∉ (processFile o false true true killed keepOld
        origSize resultSize lastReport s).2.1
    ∧ Event.renameTempToOutput ∉ (processFile o false true true killed keepOld
        origSize resultSize lastReport s).2.1
    ∧ Event.removeTemp ∉ (processFile o false true true killed keepOld
        origSize resultSize lastReport s).2.1 := by
  simp [processFile, candidateCheck, statOf, handleSession, h1, h2, h3, h4,
    FileState.withTemp]

/-- C2 witness for the amended kill-path statement. -/
theorem c2_terminated_preserves_temp_and_original_witness :
    (processFile allOk false true true true false 500 0 (some 600)
      cleanState).1.tempExists = true
    ∧ (processFile allOk false true true true false 500 0 (some 600)
        cleanState).1.originalExists = cleanState.originalExists
    ∧ Event.removeOriginal ∉ (processFile allOk false true true true false
        500 0 (some 600) cleanState).2.1
    ∧ Event.renameTempToOutput ∉ (processFile allOk false true true true false
        500 0 (some 600) cleanState).2.1
    ∧ Event.removeTemp ∉ (processFile allOk false true true true false
        500 0 (some 600) cleanState).2.1 :=
  c2_terminated_preserves_temp_and_original allOk true false 500 0 (some 600)
    cleanState rfl rfl rfl rfl

/-- C3 (counterexample): a termination signal mid-encode with a last
report of 600 MB against a 500 MB original makes the driver emit Error,
not KeptOriginal, and leaves the temp output in place: the terminated
check at root.go line 122 precedes the killed branch at line 136. -/
theorem c3_terminated_large_report_emits_error :
    notifies (processFile allOk false true true true false 500000000 0
      (some 600000000) cleanState).2.1 = [ResultKind.Error]
    ∧ (processFile allOk false true true true false 500000000 0
        (some 600000000) cleanState).1.tempExists = true := by decide

/-- C3 (amended): the described behaviour is that of a session killed
while the termination flag is unset (the early-exit path): the temp
output is deleted, the original is untouched, and KeptOriginal is
emitted iff a last report exists whose size strictly exceeds the
original size; otherwise nothing is emitted.  When the termination flag
is set the driver instead emits Error and deletes nothing. -/
theorem c3_killed_without_termination_decision (o : Oracle) (keepOld : Bool)
    (origSize resultSize : Int) (lastReport : Option Int) (s : FileState)
    (h1 : o.statMarkerErr = false) (h2 : o.statTempErr = false)
    (h3 : s.markerExists = false) (h4 : s.tempExists = false)
    (h5 : o.createMarkerOk = true) (h6 : o.removeTempKilledOk = true) :
    (processFile o false false true true keepOld origSize resultSize
      lastReport s).1.tempExists = false
    ∧ (processFile o false false true true keepOld origSize resultSize
        lastReport s).1.originalExists = s.originalExists
    ∧ notifies (processFile o false false true true keepOld origSize resultSize
        lastReport s).2.1
      = (match lastReport with
         | some sz => if origSize < sz then [ResultKind.KeepOriginal] else []
         | none => []) := by
  rcases lastReport with _ | sz
  · simp [processFile, candidateCheck, statOf, handleSession, h1, h2, h3, h4,
      h5, h6, notifies, Event.kindOf, FileState.withTemp, FileState.withMarker,
      FileState.dropTemp]
  · by_cases hlt : origSize < sz <;>
      simp [processFile, candidateCheck, statOf, handleSession, h1, h2, h3, h4,
        h5, h6, notifies, Event.kindOf, FileState.withTemp, FileState.withMarker,
        FileState.dropTemp, hlt]

/-- C3 witness for the amended statement: killed without termination,
600 MB reported against a 500 MB original. -/
theorem c3_killed_without_termination_decision_witness :
    (processFile allOk false false true true false 500000000 0
      (some 600000000) cleanState).1.tempExists = false
    ∧ (processFile allOk false false true true false 500000000 0
        (some 600000000) cleanState).1.originalExists
      = cleanState.originalExists
    ∧ notifies (processFile allOk false false true true false 500000000 0
        (some 600000000) cleanState).2.1
      = (match (some 600000000 : Option Int) with
         | some sz => if (500000000 : Int) < sz then [ResultKind.KeepOriginal]
            else []
         | none => []) :=
  c3_killed_without_termination_decision allOk false 500000000 0
    (some 600000000) cleanState rfl rfl rfl rfl rfl rfl

/-- C4: when the session returns with the global termination flag set,
the pass emits exactly one Error outcome and the state is exactly the
state the session left behind: no temp deletion, no original deletion,
no rename and no processed-marker creation happen after the session. -/
theorem c4_terminated_error_no_mutation (o : Oracle) (killed keepOld : Bool)
    (origSize resultSize : Int) (lastReport : Option Int) (s : FileState)
    (h1 : o.statMarkerErr = false) (h2 : o.statTempErr = false)
    (h3 : s.markerExists = false) (h4 : s.tempExists = false) :
    processFile o false true true killed keepOld origSize resultSize
      lastReport s
      = (s.withTemp, [Event.notify ResultKind.Error], true) := by
  simp [processFile, candidateCheck, statOf, handleSession, h1, h2, h3, h4]

/-- C4 witness at a concrete interrupted session. -/
theorem c4_terminated_error_no_mutation_witness :
    processFile allOk false true true true false 500 0 (some 600) cleanState
      = (cleanState.withTemp, [Event.notify ResultKind.Error], true) :=
  c4_terminated_error_no_mutation allOk true false 500 0 (some 600) cleanState
    rfl rfl rfl rfl

/-- C5 (counterexample): a session killed with the termination flag
unset and no last report runs to completion of its pass without any
NotifyEnd call: zero ResultKinds are emitted for a processed file,
refuting the claimed exactly-one property. -/
theorem c5_killed_without_report_emits_nothing :
    notifies (processFile allOk false false true true false 500 0 none
      cleanState).2.1 = []
    ∧ (processFile allOk false false true true false 500 0 none
        cleanState).2.2 = true := by decide

/-- C5 (amended): at most one ResultKind is emitted per candidate, on
every path of the pass, including all error paths; some paths emit
none. -/
theorem c5_at_most_one_result_emitted (o : Oracle)
    (term0 term1 extValid killed keepOld : Bool) (origSize resultSize : Int)
    (lastReport : Option Int) (s : FileState) :
    (notifies (processFile o term0 term1 extValid killed keepOld origSize
      resultSize lastReport s).2.1).length ≤ 1 := by
  unfold processFile
  split
  · exact handleSession_notifies_len o term1 killed keepOld origSize
      resultSize lastReport s.withTemp
  · simp [notifies]

/-- C6: a candidate whose processed marker exists, or whose temp file
exists, never reaches transcoder.TranscodeFile: the pass is a no-op on
the filesystem, and when the marker is absent and the temp file present
the skip is the warned in-progress skip of root.go line 116. -/
theorem c6_marker_or_temp_blocks_session (o : Oracle)
    (term0 term1 extValid killed keepOld : Bool) (origSize resultSize : Int)
    (lastReport : Option Int) (s : FileState)
    (h : s.markerExists = true ∨ s.tempExists = true) :
    processFile o term0 term1 extValid killed keepOld origSize resultSize
      lastReport s = (s, [], false)
    ∧ (term0 = false → extValid = true → o.statMarkerErr = false →
        o.statTempErr = false → s.markerExists = false →
        candidateCheck term0 extValid (statOf o.statMarkerErr s.markerExists)
          (statOf o.statTempErr s.tempExists) = StepOutcome.skipInProgress) := by
  refine ⟨processFile_skip o term0 term1 extValid killed keepOld origSize
    resultSize lastReport s h, ?_⟩
  intro ht0 hev hm1 hm2 hmk
  have htp : s.tempExists = true := by
    rcases h with h | h
    · rw [hmk] at h; exact absurd h (by decide)
    · exact h
  simp [candidateCheck, statOf, ht0, hev, hm1, hm2, hmk, htp]

/-- C6 witness: a candidate with an existing processed marker. -/
theorem c6_marker_or_temp_blocks_session_witness :
    processFile allOk false false true false false 100 50 none
      (⟨true, false, true, false⟩ : FileState)
      = ((⟨true, false, true, false⟩ : FileState), [], false)
    ∧ (false = false → true = true → allOk.statMarkerErr = false →
        allOk.statTempErr = false →
        (⟨true, false, true, false⟩ : FileState).markerExists = false →
        candidateCheck false true
          (statOf allOk.statMarkerErr
            (⟨true, false, true, false⟩ : FileState).markerExists)
          (statOf allOk.statTempErr
            (⟨true, false, true, false⟩ : FileState).tempExists)
          = StepOutcome.skipInProgress) :=
  c6_marker_or_temp_blocks_session allOk false false true false false 100 50
    none ⟨true, false, true, false⟩ (Or.inl rfl)

/-- C7: a first run that takes the replace path leaves the marker
created, the output present and no temp file; any later pass on that
state is skipped with no session and no mutation; and the processed
marker path derived from the renamed canonical file equals the marker
path derived from the original input, so the first-run marker is exactly
the one the second run checks. -/
theorem c7_second_run_is_noop (keepOld : Bool) (origSize resultSize : Int)
    (s : FileState) (h3 : s.markerExists = false) (h4 : s.tempExists = false)
    (h5 : ¬(keepOld = true ∧ origSize < resultSize)) :
    ((processFile allOk false false true false keepOld origSize resultSize
        none s).1.markerExists = true
      ∧ (processFile allOk false false true false keepOld origSize resultSize
          none s).1.outputExists = true
      ∧ (processFile allOk false false true false keepOld origSize resultSize
          none s).1.tempExists = false)
    ∧ (∀ (o2 : Oracle) (t0 t1 ev k2 ko2 : Bool) (os2 rs2 : Int)
        (lr2 : Option Int),
        processFile o2 t0 t1 ev k2 ko2 os2 rs2 lr2
            (processFile allOk false false true false keepOld origSize
              resultSize none s).1
          = ((processFile allOk false false true false keepOld origSize
              resultSize none s).1, [], false))
    ∧ (∀ p : List Char,
        processedFileName (extCorrectedOriginal p) = processedFileName p) := by
  have hstate : (processFile allOk false false true false keepOld origSize
      resultSize none s).1 = s.withTemp.withMarker.dropOriginal.renamed := by
    simp [processFile, candidateCheck, statOf, handleSession, allOk, h3, h4, h5]
  refine ⟨?_, ?_, processedFileName_extCorrected⟩
  · rw [hstate]; exact ⟨rfl, rfl, rfl⟩
  · intro o2 t0 t1 ev k2 ko2 os2 rs2 lr2
    apply processFile_skip
    rw [hstate]; exact Or.inl rfl

/-- C7 witness: keep-old disabled, 500 byte original replaced by a 300
byte transcode, then a second pass at arbitrary concrete parameters. -/
theorem c7_second_run_is_noop_witness :
    ((processFile allOk false false true false false 500 300 none
        cleanState).1.markerExists = true
      ∧ (processFile allOk false false true false false 500 300 none
          cleanState).1.outputExists = true
      ∧ (processFile allOk false false true false false 500 300 none
          cleanState).1.tempExists = false)
    ∧ (∀ (o2 : Oracle) (t0 t1 ev k2 ko2 : Bool) (os2 rs2 : Int)
        (lr2 : Option Int),
        processFile o2 t0 t1 ev k2 ko2 os2 rs2 lr2
            (processFile allOk false false true false false 500 300 none
              cleanState).1
          = ((processFile allOk false false true false false 500 300 none
              cleanState).1, [], false))
    ∧ (∀ p : List Char,
        processedFileName (extCorrectedOriginal p) = processedFileName p) :=
  c7_second_run_is_noop false 500 300 cleanState rfl rfl (by simp)

/-- C8: for an input dir/name.ext with a dot-free, slash-free extension,
a slash-free name and a clean nonempty directory, the derived paths are
the canonical output dir/name.mp4, the marker dir/.name.mp4.processed
and the temp path input plus ".transcode-temp". -/
theorem c8_path_derivations (dir name ext : List Char)
    (h1 : ('/' : Char) ∉ name) (h2 : ('/' : Char) ∉ ext)
    (h3 : ('.' : Char) ∉ ext) (h4 : dir ≠ [])
    (h5 : dir.getLast? ≠ some '/') :
    extCorrectedOriginal (dir ++ '/' :: (name ++ '.' :: ext))
      = dir ++ '/' :: (name ++ ".mp4".toList)
    ∧ processedFileName (dir ++ '/' :: (name ++ '.' :: ext))
      = dir ++ '/' :: '.' :: (name ++ ".mp4.processed".toList)
    ∧ tempFileName (dir ++ '/' :: (name ++ '.' :: ext))
      = (dir ++ '/' :: (name ++ '.' :: ext)) ++ ".transcode-temp".toList := by
  have hstep : dir ++ '/' :: (name ++ '.' :: ext)
      = (dir ++ '/' :: name) ++ '.' :: ext := by simp
  have hext : extCorrectedOriginal (dir ++ '/' :: (name ++ '.' :: ext))
      = dir ++ '/' :: (name ++ ".mp4".toList) := by
    rw [hstep, extCorrected_append _ _ h3]; simp
  refine ⟨hext, ?_, rfl⟩
  unfold processedFileName
  rw [hext]
  have hrest : ('/' : Char) ∉ name ++ ".mp4".toList := by
    intro hm
    rcases List.mem_append.mp hm with hm | hm
    · exact h1 hm
    · exact absurd hm (by decide)
  rw [goDir_append _ _ hrest h4, goBase_append _ _ hrest]
  have ha : "/.".toList = ['/', '.'] := by decide
  have hb : ".mp4".toList ++ ".processed".toList = ".mp4.processed".toList := by
    decide
  rw [ha]
  simp [← hb]

/-- C8 witness at the concrete input d/n.flv. -/
theorem c8_path_derivations_witness :
    extCorrectedOriginal (['d'] ++ '/' :: (['n'] ++ '.' :: ['f', 'l', 'v']))
      = ['d'] ++ '/' :: (['n'] ++ ".mp4".toList)
    ∧ processedFileName (['d'] ++ '/' :: (['n'] ++ '.' :: ['f', 'l', 'v']))
      = ['d'] ++ '/' :: '.' :: (['n'] ++ ".mp4.processed".toList)
    ∧ tempFileName (['d'] ++ '/' :: (['n'] ++ '.' :: ['f', 'l', 'v']))
      = (['d'] ++ '/' :: (['n'] ++ '.' :: ['f', 'l', 'v']))
          ++ ".transcode-temp".toList :=
  c8_path_derivations ['d'] ['n'] ['f', 'l', 'v'] (by decide) (by decide)
    (by decide) (by decide) (by decide)

/-- C9: when the session returns with the termination flag unset, the
trace of the pass is empty or begins with the marker creation, so the
marker precedes every deletion and rename; with the creation succeeding
the marker exists afterwards, for killed sessions too; and any state
with the marker present makes every later pass a no-op that never runs a
session. -/
theorem c9_marker_created_first (o : Oracle) (killed keepOld : Bool)
    (origSize resultSize : Int) (lastReport : Option Int) (s : FileState)
    (h1 : o.statMarkerErr = false) (h2 : o.statTempErr = false)
    (h3 : s.markerExists = false) (h4 : s.tempExists = false) :
    ((processFile o false false true killed keepOld origSize resultSize
        lastReport s).2.1 = []
      ∨ (processFile o false false true killed keepOld origSize resultSize
          lastReport s).2.1.head? = some Event.createMarker)
    ∧ (o.createMarkerOk = true →
        (processFile o false false true killed keepOld origSize resultSize
          lastReport s).1.markerExists = true)
    ∧ (∀ (s2 : FileState), s2.markerExists = true →
        ∀ (o2 : Oracle) (t0 t1 ev k2 ko2 : Bool) (os2 rs2 : Int)
          (lr2 : Option Int),
          processFile o2 t0 t1 ev k2 ko2 os2 rs2 lr2 s2 = (s2, [], false)) := by
  have hrun : processFile o false false true killed keepOld origSize
      resultSize lastReport s
      = ((handleSession o false killed keepOld origSize resultSize lastReport
          s.withTemp).1,
         (handleSession o false killed keepOld origSize resultSize lastReport
          s.withTemp).2, true) := by
    simp [processFile, candidateCheck, statOf, h1, h2, h3, h4]
  refine ⟨?_, ?_, ?_⟩
  · rw [hrun]
    exact handleSession_trace_head o killed keepOld origSize resultSize
      lastReport s.withTemp
  · intro hc
    rw [hrun]
    exact handleSession_marker o killed keepOld origSize resultSize
      lastReport s.withTemp hc
  · intro s2 hmk o2 t0 t1 ev k2 ko2 os2 rs2 lr2
    exact processFile_skip o2 t0 t1 ev k2 ko2 os2 rs2 lr2 s2 (Or.inl hmk)

/-- C9 witness at a killed-but-not-terminated session. -/
theorem c9_marker_created_first_witness :
    ((processFile allOk false false true true false 500 0 none
        cleanState).2.1 = []
      ∨ (processFile allOk false false true true false 500 0 none
          cleanState).2.1.head? = some Event.createMarker)
    ∧ (allOk.createMarkerOk = true →
        (processFile allOk false false true true false 500 0 none
          cleanState).1.markerExists = true)
    ∧ (∀ (s2 : FileState), s2.markerExists = true →
        ∀ (o2 : Oracle) (t0 t1 ev k2 ko2 : Bool) (os2 rs2 : Int)
          (lr2 : Option Int),
          processFile o2 t0 t1 ev k2 ko2 os2 rs2 lr2 s2 = (s2, [], false)) :=
  c9_marker_created_first allOk true false 500 0 none cleanState
    rfl rfl rfl rfl

/-- C10: on the replace path the original is removed strictly before the
rename of the temp output; when the rename then fails the pass stops
with the original gone, the temp file still holding the transcoded data,
the marker already created, and no result emitted. -/
theorem c10_delete_original_before_rename (o : Oracle) (keepOld : Bool)
    (origSize resultSize : Int) (lastReport : Option Int) (s : FileState)
    (h1 : o.statMarkerErr = false) (h2 : o.statTempErr = false)
    (h3 : s.markerExists = false) (h4 : s.tempExists = false)
    (h5 : o.createMarkerOk = true) (h6 : o.removeOriginalOk = true)
    (h7 : ¬(keepOld = true ∧ origSize < resultSize)) :
    (o.renameOk = true →
      (processFile o false false true false keepOld origSize resultSize
        lastReport s).2.1
        = [Event.createMarker, Event.removeOriginal, Event.renameTempToOutput,
           Event.notify ResultKind.Replaced])
    ∧ (o.renameOk = false →
      (processFile o false false true false keepOld origSize resultSize
        lastReport s).2.1 = [Event.createMarker, Event.removeOriginal]
      ∧ (processFile o false false true false keepOld origSize resultSize
          lastReport s).1.originalExists = false
      ∧ (processFile o false false true false keepOld origSize resultSize
          lastReport s).1.tempExists = true
      ∧ (processFile o false false true false keepOld origSize resultSize
          lastReport s).1.markerExists = true
      ∧ notifies (processFile o false false true false keepOld origSize
          resultSize lastReport s).2.1 = []) := by
  constructor
  · intro hr
    simp [processFile, candidateCheck, statOf, handleSession, h1, h2, h3, h4,
      h5, h6, h7, hr]
  · intro hr
    simp [processFile, candidateCheck, statOf, handleSession, h1, h2, h3, h4,
      h5, h6, h7, hr, notifies, Event.kindOf, FileState.withTemp,
      FileState.withMarker, FileState.dropOriginal]

/-- C10 witness with a failing rename. -/
theorem c10_delete_original_before_rename_witness :
    ((⟨false, false, true, true, true, true, false⟩ : Oracle).renameOk = true →
      (processFile ⟨false, false, true, true, true, true, false⟩ false false
        true false false 100 50 none cleanState).2.1
        = [Event.createMarker, Event.removeOriginal, Event.renameTempToOutput,
           Event.notify ResultKind.Replaced])
    ∧ ((⟨false, false, true, true, true, true, false⟩ : Oracle).renameOk
        = false →
      (processFile ⟨false, false, true, true, true, true, false⟩ false false
        true false false 100 50 none cleanState).2.1
        = [Event.createMarker, Event.removeOriginal]
      ∧ (processFile ⟨false, false, true, true, true, true, false⟩ false false
          true false false 100 50 none cleanState).1.originalExists = false
      ∧ (processFile ⟨false, false, true, true, true, true, false⟩ false false
          true false false 100 50 none cleanState).1.tempExists = true
      ∧ (processFile ⟨false, false, true, true, true, true, false⟩ false false
          true false false 100 50 none cleanState).1.markerExists = true
      ∧ notifies (processFile ⟨false, false, true, true, true, true, false⟩
          false false true false false 100 50 none cleanState).2.1 = []) :=
  c10_delete_original_before_rename ⟨false, false, true, true, true, true,
    false⟩ false 100 50 none cleanState rfl rfl rfl rfl rfl rfl (by simp)

end TranscoderGo
